import Mathlib

/-!
# PetWell backend (`main.go`): shallow embedding and verified properties

The HTTP handlers of `main.go` are embedded as pure functions

  `Lib → Env → Request → Store → ResponseWriter × Store`

* `Store` is the in-memory state of the process (the globals `posts` and `users`);
  the two mutexes serialise the handlers, so requests are modelled one after another.
* `Env` is what the outside world answers during one request (the file system, the
  clock, the database).
* `Lib` collects the Go standard-library functions the handlers call and whose code is
  not part of the repository (JSON leaf encoders and decoders, the CSV reader,
  `path/filepath`, the Unicode case table, `Rows.Scan`).
* Output written with `fmt.Printf` (server log) is not part of the response and is left out.
* Go strings are modelled by Lean `String` (sequences of Unicode scalar values); byte
  strings that are not valid UTF-8 are outside the model. `strings.TrimSpace` and
  `strings.ToUpper` are given by their rune-level behaviour.
-/

namespace Petwell

/-! ## Go values -/

/-- Go `error` values; only whether there is one matters to the handlers. -/
abbrev GoError := String

/-- A Go slice value. `Slice.nil` is the nil slice (what `var s []T` declares),
`Slice.mk l` a non-nil slice holding the elements `l` (possibly none). -/
inductive Slice (α : Type) where
  | nil : Slice α
  | mk (items : List α) : Slice α
deriving DecidableEq, Repr

/-- Elements of a slice, in order (what `range` iterates over). -/
def Slice.elems {α : Type} : Slice α → List α
  | Slice.nil => []
  | Slice.mk l => l

/-- Go `append(s, x)`: the result is never nil. -/
def Slice.append {α : Type} (s : Slice α) (x : α) : Slice α :=
  Slice.mk (s.elems ++ [x])

/-- Go `append([]T{x}, s...)`: a fresh one-element slice followed by the elements of `s`. -/
def Slice.prepend {α : Type} (x : α) (s : Slice α) : Slice α :=
  Slice.mk (x :: s.elems)

/-- A `time.Time` instant, observed through `UnixNano()` (an int64). -/
structure Time where
  unixNano : Int
deriving DecidableEq, Repr

/-- A `float64`, given by its IEEE-754 bit pattern. -/
structure Float64 where
  bits : Nat
deriving DecidableEq, Repr

/-- Go `f == 0` on a float64: true for `+0` and `-0`. -/
def Float64.isZero (f : Float64) : Bool :=
  f.bits % 2 ^ 63 == 0

/-! ## Models (`main.go`, lines 26-94) -/

/-- Go struct `User`. -/
structure User where
  ID : String
  Name : String
  Role : String
deriving DecidableEq, Repr

/-- Go struct `BlogPost`. -/
structure BlogPost where
  ID : String
  AuthorName : String
  AuthorAvatar : String
  Title : String
  Content : String
  ImageColor : String
  Likes : Int
  Timestamp : Time
deriving DecidableEq, Repr

/-- Go struct `Clinic`. -/
structure Clinic where
  ClinicID : String
  Name : String
  Address : String
  PhoneRegular : String
  PhoneEmergency : String
  Whatsapp : String
  OpeningHours : String
  Emergency24h : String
  WebsiteURL : String
  ApplemapURL : String
  Latitude : String
  Longitude : String
  Rating : String
deriving DecidableEq, Repr

/-- Go struct `InsuranceProvider`. -/
structure InsuranceProvider where
  ProviderKey : String
  InsuranceProvider : String
  CompanyName : String
  PlanName : String
  Category : String
  Subcategory : String
  CoveragePercent : String
  CancerCashHKD : Float64
  CancerCashNotes : String
  AdditionalBenefit : Float64
  CoverageMode : String
deriving DecidableEq, Repr

/-- Go struct `CoverageLimit`. -/
structure CoverageLimit where
  ID : Int
  LimitItem : String
  ProviderKey : String
  Level : String
  Category : String
  Subcategory : String
  CoverageAmountHKD : String
  Notes : String
deriving DecidableEq, Repr

/-- Go struct `ServiceSubcategory`. -/
structure ServiceSubcategory where
  ID : Int
  Name : String
  DisplayOrder : Int
deriving DecidableEq, Repr

/-! ## The database, as seen through `database/sql` -/

/-- One column value of a result row. -/
inductive SqlValue where
  | null : SqlValue
  | integer (i : Int) : SqlValue
  | real (f : Float64) : SqlValue
  | text (s : String) : SqlValue
deriving DecidableEq, Repr

/-- One result row. -/
abbrev Row := List SqlValue

/-- An open `*sql.DB`: `query q args` is the outcome of `db.Query(q, args...)`, either an
error or the rows that `rows.Next()` then yields. -/
structure DB where
  query : String → List String → Except GoError (List Row)

/-- Destinations filled by `rows.Scan` in `insuranceProvidersHandler`: the seven string
fields of `p`, then `cancerCash`, `cancerNotes`, `additionalBenefit`, `coverageMode`
(`sql.NullFloat64` and `sql.NullString`, `none` when not `Valid`). -/
structure ProviderScan where
  ProviderKey : String
  InsuranceProvider : String
  CompanyName : String
  PlanName : String
  Category : String
  Subcategory : String
  CoveragePercent : String
  cancerCash : Option Float64
  cancerNotes : Option String
  additionalBenefit : Option Float64
  coverageMode : Option String

/-- Destinations filled by `rows.Scan` in `coverageLimitsHandler`. -/
structure LimitScan where
  ID : Int
  LimitItem : String
  ProviderKey : String
  Level : String
  Category : String
  Subcategory : String
  CoverageAmountHKD : String
  notes : Option String

/-! ## Library functions and the environment of a request -/

/-- Standard-library functions called by the handlers. -/
structure Lib where
  /-- The JSON string literal `encoding/json` writes for a Go string. -/
  quote : String → String
  /-- The JSON number for a float64; `none` for NaN and the infinities. -/
  float : Float64 → Option String
  /-- Result of `Time.MarshalJSON`; `none` when it returns an error. -/
  time : Time → Option String
  /-- Result of `json.NewDecoder(body).Decode(&user)` on a zero `User`. -/
  decodeUser : String → Except GoError User
  /-- Result of `json.NewDecoder(body).Decode(&post)` on a zero `BlogPost`. -/
  decodePost : String → Except GoError BlogPost
  /-- The outcomes of the successive `Read` calls of a `csv.Reader` over a file content,
  up to the end of the input (after which `Read` returns `io.EOF`). -/
  csvRecords : String → List (Except GoError (List String))
  /-- Function `filepath.Dir`. -/
  pathDir : String → String
  /-- Function `filepath.Join`, for two elements. -/
  pathJoin : String → String → String
  /-- Upper-case mapping of `unicode.ToUpper` on runes above `unicode.MaxASCII`. -/
  upperTable : Char → Char
  /-- Outcome of `rows.Scan` with the destinations of `insuranceProvidersHandler`. -/
  scanProvider : Row → Except GoError ProviderScan
  /-- Outcome of `rows.Scan` with the destinations of `coverageLimitsHandler`. -/
  scanLimit : Row → Except GoError LimitScan
  /-- Outcome of `rows.Scan` with the destinations of `serviceSubcategoriesHandler`. -/
  scanSubcategory : Row → Except GoError ServiceSubcategory

/-- What the outside world answers during one request. -/
structure Env where
  /-- Result of `os.Executable()`. -/
  executable : Except GoError String
  /-- Result of `os.Open(path)`, an error or the content read from the file. -/
  openFile : String → Except GoError String
  /-- Value of `time.Now()` at line 201 (the one the id is derived from). -/
  nowID : Time
  /-- Value of `time.Now()` at line 202 (the timestamp). -/
  nowStamp : Time
  /-- Result of `sql.Open("sqlite3", path)`. -/
  sqlOpen : String → Except GoError DB

/-! ## Requests and responses (`net/http`) -/

/-- The parts of `*http.Request` the handlers read. -/
structure Request where
  Method : String
  Body : String
  /-- Parsed query string, `r.URL.Query()`, as key/value pairs in order. -/
  Query : List (String × String)

/-- Go `url.Values.Get`: the first value of the key, or the empty string. -/
def queryGet (q : List (String × String)) (key : String) : String :=
  match q.find? (fun kv => kv.1 == key) with
  | some kv => kv.2
  | none => ""

def MethodGet : String := "GET"
def MethodPost : String := "POST"
def MethodOptions : String := "OPTIONS"

def StatusOK : Nat := 200
def StatusBadRequest : Nat := 400
def StatusNotFound : Nat := 404
def StatusMethodNotAllowed : Nat := 405
def StatusInternalServerError : Nat := 500

/-- State of an `http.ResponseWriter`: the header map, the status code once it has been
written (`none` before), and the bytes of the body. -/
structure ResponseWriter where
  header : List (String × String) := []
  status : Option Nat := none
  body : String := ""
deriving DecidableEq, Repr

namespace ResponseWriter

/-- Go `w.Header().Set(k, v)`: replaces the value of the key. -/
def set (w : ResponseWriter) (k v : String) : ResponseWriter :=
  { w with header := w.header.filter (fun kv => kv.1 != k) ++ [(k, v)] }

/-- Go `w.Header().Get(k)`. -/
def get (w : ResponseWriter) (k : String) : Option String :=
  (w.header.find? (fun kv => kv.1 == k)).map (fun kv => kv.2)

/-- Go `w.WriteHeader(code)`: only the first call counts. -/
def writeHeader (w : ResponseWriter) (code : Nat) : ResponseWriter :=
  match w.status with
  | some _ => w
  | none => { w with status := some code }

/-- Go `w.Write(bytes)`: sends status 200 first when no status was written. -/
def write (w : ResponseWriter) (bytes : String) : ResponseWriter :=
  let w1 := w.writeHeader StatusOK
  { w1 with body := w1.body ++ bytes }

/-- Go `json.NewEncoder(w).Encode(v)`, given the outcome of marshalling `v`: the JSON text
and a newline are written, or nothing when marshalling failed. -/
def encode (w : ResponseWriter) (json : Option String) : ResponseWriter :=
  match json with
  | some b => w.write (b ++ "\n")
  | none => w

/-- The status code the client receives: 200 when the handler never wrote one. -/
def statusCode (w : ResponseWriter) : Nat :=
  w.status.getD StatusOK

end ResponseWriter

/-- Go `http.Error(w, msg, code)`. -/
def httpError (w : ResponseWriter) (msg : String) (code : Nat) : ResponseWriter :=
  (((w.set "Content-Type" "text/plain; charset=utf-8").set
    "X-Content-Type-Options" "nosniff").writeHeader code).write (msg ++ "\n")

/-! ## JSON encoding of the models (struct tags of `main.go`) -/

/-- All the strings when every one is present. -/
def collect : List (Option String) → Option (List String)
  | [] => some []
  | none :: _ => none
  | some x :: xs => (collect xs).map (fun l => x :: l)

/-- JSON text of a slice: `null` for the nil slice, an array otherwise. -/
def marshalSlice {α : Type} (f : α → Option String) : Slice α → Option String
  | Slice.nil => some "null"
  | Slice.mk l => (collect (l.map f)).map (fun parts => "[" ++ ",".intercalate parts ++ "]")

/-- JSON text of a `User`. -/
def marshalUser (lib : Lib) (u : User) : String :=
  "\x7b\"id\":" ++ lib.quote u.ID ++ ",\"name\":" ++ lib.quote u.Name
    ++ ",\"role\":" ++ lib.quote u.Role ++ "\x7d"

/-- JSON text of a `BlogPost`. -/
def marshalPost (lib : Lib) (p : BlogPost) : Option String :=
  (lib.time p.Timestamp).map (fun t =>
    "\x7b\"id\":" ++ lib.quote p.ID ++ ",\"authorName\":" ++ lib.quote p.AuthorName
      ++ ",\"authorAvatar\":" ++ lib.quote p.AuthorAvatar ++ ",\"title\":" ++ lib.quote p.Title
      ++ ",\"content\":" ++ lib.quote p.Content ++ ",\"imageColor\":" ++ lib.quote p.ImageColor
      ++ ",\"likes\":" ++ toString p.Likes ++ ",\"timestamp\":" ++ t ++ "\x7d")

/-- JSON text of a `Clinic`. -/
def marshalClinic (lib : Lib) (c : Clinic) : String :=
  "\x7b\"clinic_id\":" ++ lib.quote c.ClinicID ++ ",\"name\":" ++ lib.quote c.Name
    ++ ",\"address\":" ++ lib.quote c.Address ++ ",\"phone_regular\":" ++ lib.quote c.PhoneRegular
    ++ ",\"phone_emergency\":" ++ lib.quote c.PhoneEmergency
    ++ ",\"whatsapp\":" ++ lib.quote c.Whatsapp
    ++ ",\"opening_hours\":" ++ lib.quote c.OpeningHours
    ++ ",\"emergency_24h\":" ++ lib.quote c.Emergency24h
    ++ ",\"website_url\":" ++ lib.quote c.WebsiteURL
    ++ ",\"applemap_url\":" ++ lib.quote c.ApplemapURL
    ++ ",\"latitude\":" ++ lib.quote c.Latitude ++ ",\"longitude\":" ++ lib.quote c.Longitude
    ++ ",\"rating\":" ++ lib.quote c.Rating ++ "\x7d"

/-- One `"key":value` member for a float64 field tagged `omitempty`: left out when zero. -/
def floatMemberOmitEmpty (lib : Lib) (key : String) (f : Float64) : Option (List String) :=
  if f.isZero then some []
  else (lib.float f).map (fun t => ["\"" ++ key ++ "\":" ++ t])

/-- One `"key":value` member for a string field tagged `omitempty`: left out when empty. -/
def stringMemberOmitEmpty (lib : Lib) (key : String) (s : String) : List String :=
  if s = "" then [] else ["\"" ++ key ++ "\":" ++ lib.quote s]

/-- JSON text of an `InsuranceProvider`. -/
def marshalProvider (lib : Lib) (p : InsuranceProvider) : Option String :=
  match floatMemberOmitEmpty lib "cancer_cash_hkd" p.CancerCashHKD,
        floatMemberOmitEmpty lib "additional_critical_cash_benefit" p.AdditionalBenefit with
  | some cash, some benefit =>
    some ("\x7b" ++ ",".intercalate
      (["\"provider_key\":" ++ lib.quote p.ProviderKey,
        "\"insurance_provider\":" ++ lib.quote p.InsuranceProvider,
        "\"company_name\":" ++ lib.quote p.CompanyName,
        "\"plan_name\":" ++ lib.quote p.PlanName,
        "\"category\":" ++ lib.quote p.Category,
        "\"subcategory\":" ++ lib.quote p.Subcategory,
        "\"coverage_percentage\":" ++ lib.quote p.CoveragePercent]
        ++ cash ++ stringMemberOmitEmpty lib "cancer_cash_notes" p.CancerCashNotes
        ++ benefit ++ ["\"coverage_mode\":" ++ lib.quote p.CoverageMode]) ++ "\x7d")
  | _, _ => none

/-- JSON text of a `CoverageLimit`. -/
def marshalLimit (lib : Lib) (c : CoverageLimit) : String :=
  "\x7b\"id\":" ++ toString c.ID ++ ",\"limit_item\":" ++ lib.quote c.LimitItem
    ++ ",\"provider_key\":" ++ lib.quote c.ProviderKey ++ ",\"level\":" ++ lib.quote c.Level
    ++ ",\"category\":" ++ lib.quote c.Category ++ ",\"subcategory\":" ++ lib.quote c.Subcategory
    ++ ",\"coverage_amount_hkd\":" ++ lib.quote c.CoverageAmountHKD
    ++ ",\"notes\":" ++ lib.quote c.Notes ++ "\x7d"

/-- JSON text of a `ServiceSubcategory`. -/
def marshalSubcategory (lib : Lib) (s : ServiceSubcategory) : String :=
  "\x7b\"id\":" ++ toString s.ID ++ ",\"name\":" ++ lib.quote s.Name
    ++ ",\"display_order\":" ++ toString s.DisplayOrder ++ "\x7d"

/-! ## Constants (`main.go`, lines 19-24) -/

def jsonFile : String := "vaccines.json"
def clinicsFile : String := "clinics.csv"
def insuranceDB : String := "insurance.db"

/-! ## In-memory storage (`main.go`, lines 96-103) -/

/-- The Go map `users`. -/
abbrev UserMap := String → Option User

/-- Go `users[id] = u`. -/
def UserMap.insert (m : UserMap) (id : String) (u : User) : UserMap :=
  fun k => if k = id then some u else m k

/-- The process state: the globals `posts` and `users`. -/
structure Store where
  posts : Slice BlogPost
  users : UserMap

/-- The globals as initialised at line 99-100: an empty map and an empty non-nil slice. -/
def Store.initial : Store :=
  { posts := Slice.mk [], users := fun _ => none }

/-! ## Handlers -/

/-- Type of a handler: the response it writes and the state it leaves. -/
abbrev Handler := Lib → Env → Request → Store → ResponseWriter × Store

/-- Go `enableCors` (lines 107-111). -/
def enableCors (w : ResponseWriter) : ResponseWriter :=
  ((w.set "Access-Control-Allow-Origin" "*").set
    "Access-Control-Allow-Methods" "GET, POST, OPTIONS").set
    "Access-Control-Allow-Headers" "Content-Type"

/-- Go `vaccinesHandler` (lines 113-145). -/
def vaccinesHandler : Handler := fun lib env r st =>
  let w := enableCors {}
  if r.Method = MethodOptions then (w, st)
  else if r.Method ≠ MethodGet then
    (httpError w "Method not allowed" StatusMethodNotAllowed, st)
  else
    match env.executable with
    | .error _ => (httpError w "Server Error" StatusInternalServerError, st)
    | .ok ex =>
      let exPath := lib.pathDir ex
      match env.openFile jsonFile with
      | .ok content => ((w.set "Content-Type" "application/json").write content, st)
      | .error _ =>
        match env.openFile (lib.pathJoin exPath jsonFile) with
        | .error _ => (httpError w "File not found" StatusNotFound, st)
        | .ok content => ((w.set "Content-Type" "application/json").write content, st)

/-- Go `registerHandler` (lines 147-176). -/
def registerHandler : Handler := fun lib _env r st =>
  let w := enableCors {}
  if r.Method = MethodOptions then (w, st)
  else if r.Method ≠ MethodPost then
    (httpError w "Method not allowed" StatusMethodNotAllowed, st)
  else
    match lib.decodeUser r.Body with
    | .error _ => (httpError w "Invalid request body" StatusBadRequest, st)
    | .ok user =>
      if user.ID = "" ∨ user.Name = "" then
        (httpError w "ID and Name are required" StatusBadRequest, st)
      else
        ((w.set "Content-Type" "application/json").encode (some (marshalUser lib user)),
          { st with users := st.users.insert user.ID user })

/-- The record `postsHandler` builds from a decoded body (lines 200-205): the id is the
decimal text of the clock reading in nanoseconds, the timestamp is the clock, and an empty
`ImageColor` becomes `"blue"`. -/
def newPost (env : Env) (post : BlogPost) : BlogPost :=
  let post1 := { post with ID := toString env.nowID.unixNano }
  let post2 := { post1 with Timestamp := env.nowStamp }
  if post2.ImageColor = "" then { post2 with ImageColor := "blue" } else post2

/-- Go `postsHandler` (lines 178-219). -/
def postsHandler : Handler := fun lib env r st =>
  let w := enableCors {}
  if r.Method = MethodOptions then (w, st)
  else if r.Method = MethodGet then
    ((w.set "Content-Type" "application/json").encode (marshalSlice (marshalPost lib) st.posts),
      st)
  else if r.Method = MethodPost then
    match lib.decodePost r.Body with
    | .error _ => (httpError w "Invalid request body" StatusBadRequest, st)
    | .ok post =>
      let post := newPost env post
      ((w.set "Content-Type" "application/json").encode (marshalPost lib post),
        { st with posts := Slice.prepend post st.posts })
  else (httpError w "Method not allowed" StatusMethodNotAllowed, st)

/-! ## Clinics (`main.go`, lines 221-321) -/

/-- Go `reader.Read()` on the remaining outcomes of a `csv.Reader`: the next outcome, or
the error `io.EOF` at the end of the input. -/
def csvRead : List (Except GoError (List String)) →
    Except GoError (List String) × List (Except GoError (List String))
  | [] => (.error "EOF", [])
  | r :: rest => (r, rest)

/-- Go `reader.ReadAll()`: every remaining record, or the first error met. -/
def csvReadAll : List (Except GoError (List String)) → Except GoError (List (List String))
  | [] => .ok []
  | .error e :: _ => .error e
  | .ok r :: rest =>
    match csvReadAll rest with
    | .error e => .error e
    | .ok rs => .ok (r :: rs)

/-- The `Clinic` literal of lines 251-265. The indices are in range where it is used
(`len(row) >= 13`), so the default of `getD` is never taken. -/
def clinicOfRow (row : List String) : Clinic :=
  { ClinicID := row.getD 0 ""
    Name := row.getD 1 ""
    Address := row.getD 2 ""
    PhoneRegular := row.getD 3 ""
    PhoneEmergency := row.getD 4 ""
    Whatsapp := row.getD 5 ""
    OpeningHours := row.getD 6 ""
    Emergency24h := row.getD 7 ""
    WebsiteURL := row.getD 8 ""
    ApplemapURL := row.getD 9 ""
    Latitude := row.getD 10 ""
    Longitude := row.getD 11 ""
    Rating := row.getD 12 "" }

/-- The loop of `loadClinicsFromCSV` (lines 246-266): `clinics` starts as the nil slice,
rows with fewer than 13 fields are skipped, the others are appended. -/
def rowsToClinics (records : List (List String)) : Slice Clinic :=
  records.foldl
    (fun clinics row => if row.length < 13 then clinics else clinics.append (clinicOfRow row))
    Slice.nil

/-- Go `loadClinicsFromCSV` (lines 222-268). -/
def loadClinicsFromCSV (lib : Lib) (env : Env) : Except GoError (Slice Clinic) :=
  let file : Except GoError String :=
    match env.openFile clinicsFile with
    | .ok f => .ok f
    | .error _ =>
      let ex := match env.executable with
        | .ok e => e
        | .error _ => ""
      let exPath := lib.pathDir ex
      env.openFile (lib.pathJoin exPath clinicsFile)
  match file with
  | .error e => .error e
  | .ok content =>
    match csvRead (lib.csvRecords content) with
    | (.error e, _) => .error e
    | (.ok _, reader) =>
      match csvReadAll reader with
      | .error e => .error e
      | .ok records => .ok (rowsToClinics records)

/-- Go `unicode.IsSpace`: the Unicode White_Space property. -/
def isSpace (c : Char) : Bool :=
  let n := c.toNat
  (decide (9 ≤ n) && decide (n ≤ 13)) || n == 0x20 || n == 0x85 || n == 0xA0 || n == 0x1680
    || (decide (0x2000 ≤ n) && decide (n ≤ 0x200A)) || n == 0x2028 || n == 0x2029
    || n == 0x202F || n == 0x205F || n == 0x3000

/-- Go `strings.TrimSpace`: leading and trailing white space removed. -/
def TrimSpace (s : String) : String :=
  String.mk ((s.data.dropWhile isSpace).reverse.dropWhile isSpace).reverse

/-- An ASCII lower-case letter. -/
def isLowerASCII (c : Char) : Bool :=
  decide ('a'.toNat ≤ c.toNat) && decide (c.toNat ≤ 'z'.toNat)

/-- Go `unicode.ToUpper`: ASCII letters by arithmetic, other runes by the case table. -/
def unicodeToUpper (lib : Lib) (r : Char) : Char :=
  if r.toNat ≤ 0x7F then
    if isLowerASCII r then Char.ofNat (r.toNat - 32) else r
  else lib.upperTable r

/-- Go `strings.ToUpper`: an ASCII-only string is mapped bytewise (and returned as is when
it has no lower-case letter), any other string rune by rune with `unicode.ToUpper`. -/
def ToUpper (lib : Lib) (s : String) : String :=
  let isASCII := s.data.all (fun c => decide (c.toNat < 0x80))
  let hasLower := s.data.any isLowerASCII
  if isASCII then
    if !hasLower then s
    else String.mk (s.data.map (fun c => if isLowerASCII c then Char.ofNat (c.toNat - 32) else c))
  else String.mk (s.data.map (unicodeToUpper lib))

/-- The test of line 314. -/
def isEmergency (lib : Lib) (c : Clinic) : Bool :=
  ToUpper lib (TrimSpace c.Emergency24h) == "TRUE"

/-- The loop of `emergencyClinicsHandler` (lines 312-317): `emergencyClinics` starts as
the nil slice and receives, in order, the clinics that pass the test. -/
def filterEmergency (lib : Lib) (allClinics : Slice Clinic) : Slice Clinic :=
  allClinics.elems.foldl
    (fun emergencyClinics c => if isEmergency lib c then emergencyClinics.append c
      else emergencyClinics)
    Slice.nil

/-- Go `clinicsHandler` (lines 270-291). -/
def clinicsHandler : Handler := fun lib env r st =>
  let w := enableCors {}
  if r.Method = MethodOptions then (w, st)
  else if r.Method ≠ MethodGet then
    (httpError w "Method not allowed" StatusMethodNotAllowed, st)
  else
    match loadClinicsFromCSV lib env with
    | .error _ => ((w.set "Content-Type" "application/json").write "[]", st)
    | .ok clinics =>
      ((w.set "Content-Type" "application/json").encode
        (marshalSlice (fun c => some (marshalClinic lib c)) clinics), st)

/-- Go `emergencyClinicsHandler` (lines 293-321). -/
def emergencyClinicsHandler : Handler := fun lib env r st =>
  let w := enableCors {}
  if r.Method = MethodOptions then (w, st)
  else if r.Method ≠ MethodGet then
    (httpError w "Method not allowed" StatusMethodNotAllowed, st)
  else
    match loadClinicsFromCSV lib env with
    | .error _ => ((w.set "Content-Type" "application/json").write "[]", st)
    | .ok allClinics =>
      ((w.set "Content-Type" "application/json").encode
        (marshalSlice (fun c => some (marshalClinic lib c)) (filterEmergency lib allClinics)),
        st)

/-! ## Insurance (`main.go`, lines 323-509) -/

/-- Go `openInsuranceDB` (lines 325-337). -/
def openInsuranceDB (lib : Lib) (env : Env) : Except GoError DB :=
  match env.sqlOpen insuranceDB with
  | .ok db => .ok db
  | .error _ =>
    let ex := match env.executable with
      | .ok e => e
      | .error _ => ""
    let exPath := lib.pathDir ex
    match env.sqlOpen (lib.pathJoin exPath insuranceDB) with
    | .error e => .error e
    | .ok db => .ok db

/-- The query text of lines 359-362. -/
def providersQuery : String :=
  "SELECT provider_key, insurance_provider, company_name, plan_name, \n\t\tcategory, subcategory, coverage_percentage, cancer_cash_hkd, cancer_cash_notes, \n\t\tadditional_critical_cash_benefit, coverage_mode \n\t\tFROM pet_insurance_comparison ORDER BY provider_key"

/-- The record built from one scanned row (lines 373-393): a column that is not `Valid`
leaves the zero value of the field. -/
def providerOfScan (d : ProviderScan) : InsuranceProvider :=
  { ProviderKey := d.ProviderKey
    InsuranceProvider := d.InsuranceProvider
    CompanyName := d.CompanyName
    PlanName := d.PlanName
    Category := d.Category
    Subcategory := d.Subcategory
    CoveragePercent := d.CoveragePercent
    CancerCashHKD := d.cancerCash.getD { bits := 0 }
    CancerCashNotes := d.cancerNotes.getD ""
    AdditionalBenefit := d.additionalBenefit.getD { bits := 0 }
    CoverageMode := d.coverageMode.getD "" }

/-- The loop of lines 371-395: rows whose `Scan` fails are skipped. -/
def scanProviders (lib : Lib) (rows : List Row) : Slice InsuranceProvider :=
  rows.foldl
    (fun providers row =>
      match lib.scanProvider row with
      | .error _ => providers
      | .ok d => providers.append (providerOfScan d))
    Slice.nil

/-- Go `insuranceProvidersHandler` (lines 339-399). -/
def insuranceProvidersHandler : Handler := fun lib env r st =>
  let w := enableCors {}
  if r.Method = MethodOptions then (w, st)
  else if r.Method ≠ MethodGet then
    (httpError w "Method not allowed" StatusMethodNotAllowed, st)
  else
    match openInsuranceDB lib env with
    | .error _ => ((w.set "Content-Type" "application/json").write "[]", st)
    | .ok db =>
      match db.query providersQuery [] with
      | .error _ => ((w.set "Content-Type" "application/json").write "[]", st)
      | .ok rows =>
        ((w.set "Content-Type" "application/json").encode
          (marshalSlice (marshalProvider lib) (scanProviders lib rows)), st)

/-- The raw string literal of lines 425-426. -/
def coverageSelect : String :=
  "SELECT id, limit_item, provider_key, level, category, subcategory, coverage_amount_hkd, notes \n\t\tFROM coverage_limits WHERE 1=1"

/-- The query text and the bound arguments `coverageLimitsHandler` builds from the two
query parameters (lines 425-437). -/
def coverageQuery (providerKey level : String) : String × List String :=
  let query := coverageSelect
  let args : List String := []
  let (query, args) :=
    if providerKey ≠ "" then (query ++ " AND provider_key = ?", args ++ [providerKey])
    else (query, args)
  let (query, args) :=
    if level ≠ "" then (query ++ " AND level = ?", args ++ [level])
    else (query, args)
  (query ++ " ORDER BY provider_key, level, subcategory", args)

/-- The record built from one scanned row (lines 450-459). -/
def limitOfScan (d : LimitScan) : CoverageLimit :=
  { ID := d.ID
    LimitItem := d.LimitItem
    ProviderKey := d.ProviderKey
    Level := d.Level
    Category := d.Category
    Subcategory := d.Subcategory
    CoverageAmountHKD := d.CoverageAmountHKD
    Notes := d.notes.getD "" }

/-- The loop of lines 448-461. -/
def scanLimits (lib : Lib) (rows : List Row) : Slice CoverageLimit :=
  rows.foldl
    (fun limits row =>
      match lib.scanLimit row with
      | .error _ => limits
      | .ok d => limits.append (limitOfScan d))
    Slice.nil

/-- Go `coverageLimitsHandler` (lines 401-465). -/
def coverageLimitsHandler : Handler := fun lib env r st =>
  let w := enableCors {}
  if r.Method = MethodOptions then (w, st)
  else if r.Method ≠ MethodGet then
    (httpError w "Method not allowed" StatusMethodNotAllowed, st)
  else
    match openInsuranceDB lib env with
    | .error _ => ((w.set "Content-Type" "application/json").write "[]", st)
    | .ok db =>
      let providerKey := queryGet r.Query "provider_key"
      let level := queryGet r.Query "level"
      let qa := coverageQuery providerKey level
      match db.query qa.1 qa.2 with
      | .error _ => ((w.set "Content-Type" "application/json").write "[]", st)
      | .ok rows =>
        ((w.set "Content-Type" "application/json").encode
          (marshalSlice (fun c => some (marshalLimit lib c)) (scanLimits lib rows)), st)

/-- The query text of lines 487-488. -/
def subcategoriesQuery : String :=
  "SELECT id, name, display_order \n\t\tFROM service_subcategories ORDER BY display_order"

/-- The loop of lines 497-505. -/
def scanSubcategories (lib : Lib) (rows : List Row) : Slice ServiceSubcategory :=
  rows.foldl
    (fun subcategories row =>
      match lib.scanSubcategory row with
      | .error _ => subcategories
      | .ok s => subcategories.append s)
    Slice.nil

/-- Go `serviceSubcategoriesHandler` (lines 467-509). -/
def serviceSubcategoriesHandler : Handler := fun lib env r st =>
  let w := enableCors {}
  if r.Method = MethodOptions then (w, st)
  else if r.Method ≠ MethodGet then
    (httpError w "Method not allowed" StatusMethodNotAllowed, st)
  else
    match openInsuranceDB lib env with
    | .error _ => ((w.set "Content-Type" "application/json").write "[]", st)
    | .ok db =>
      match db.query subcategoriesQuery [] with
      | .error _ => ((w.set "Content-Type" "application/json").write "[]", st)
      | .ok rows =>
        ((w.set "Content-Type" "application/json").encode
          (marshalSlice (fun s => some (marshalSubcategory lib s)) (scanSubcategories lib rows)),
          st)

/-- The eight handlers registered in `main` (lines 517-526), with their paths. -/
def routes : List (String × Handler) :=
  [("/vaccines", vaccinesHandler), ("/register", registerHandler), ("/posts", postsHandler),
   ("/clinics", clinicsHandler), ("/emergency-clinics", emergencyClinicsHandler),
   ("/insurance-providers", insuranceProvidersHandler),
   ("/coverage-limits", coverageLimitsHandler),
   ("/service-subcategories", serviceSubcategoriesHandler)]

/-- Requests handled one after the other by a handler, each in its own environment:
the responses in order, and the final state. -/
def serve (h : Handler) (lib : Lib) : List (Env × Request) → Store → List ResponseWriter × Store
  | [], st => ([], st)
  | er :: rest, st =>
    let out := h lib er.1 er.2 st
    let outs := serve h lib rest out.2
    (out.1 :: outs.1, outs.2)

/-! ## A concrete library and concrete environments, used to run the handlers -/

/-- Pieces of a character list between occurrences of a separator. -/
def splitChars (sep : Char) : List Char → List (List Char)
  | [] => [[]]
  | c :: cs =>
    if c = sep then [] :: splitChars sep cs
    else
      match splitChars sep cs with
      | [] => [[c]]
      | x :: xs => (c :: x) :: xs

/-- A reader for CSV text without quoted fields: one record per non-empty line, fields
separated by commas. -/
def simpleCsv (content : String) : List (Except GoError (List String)) :=
  ((splitChars '\n' content.data).filter (fun l => !l.isEmpty)).map
    (fun l => .ok ((splitChars ',' l).map String.mk))

/-- A library instance: strings are quoted without escapes, two request bodies decode to
users and two to posts, every `Scan` fails. -/
def demoLib : Lib :=
  { quote := fun s => "\"" ++ s ++ "\""
    float := fun _ => none
    time := fun t => some ("\"t" ++ toString t.unixNano ++ "\"")
    decodeUser := fun body =>
      if body = "\x7b\"id\":\"u1\",\"name\":\"Alice\"\x7d" then .ok ⟨"u1", "Alice", ""⟩
      else if body = "\x7b\"name\":\"Alice\"\x7d" then .ok ⟨"", "Alice", ""⟩
      else .error "invalid character"
    decodePost := fun body =>
      if body = "\x7b\"title\":\"First\"\x7d" then
        .ok ⟨"", "", "", "First", "", "", 0, ⟨0⟩⟩
      else if body = "\x7b\"title\":\"Second\",\"imageColor\":\"teal\"\x7d" then
        .ok ⟨"", "", "", "Second", "", "teal", 0, ⟨0⟩⟩
      else .error "invalid character"
    csvRecords := simpleCsv
    pathDir := fun _ => "/srv"
    pathJoin := fun d f => d ++ "/" ++ f
    upperTable := fun c => c
    scanProvider := fun _ => .error "scan"
    scanLimit := fun _ => .error "scan"
    scanSubcategory := fun _ => .error "scan" }

/-- Header line of `clinics.csv`. -/
def demoHeader : String :=
  "clinic_id,name,address,phone_regular,phone_emergency,whatsapp,opening_hours,emergency_24h,website_url,applemap_url,latitude,longitude,rating\n"

/-- An environment with no file and no database. -/
def offlineEnv : Env :=
  { executable := .ok "/srv/petwell"
    openFile := fun _ => .error "no such file or directory"
    nowID := ⟨1700000000000000001⟩
    nowStamp := ⟨1700000000000000002⟩
    sqlOpen := fun _ => .error "unable to open database file" }

/-- An environment whose database opens and rejects every query. -/
def brokenDbEnv : Env :=
  { offlineEnv with sqlOpen := fun _ => .ok { query := fun _ _ => .error "no such table" } }

/-- An environment whose `clinics.csv` has the given content. -/
def csvEnv (content : String) : Env :=
  { offlineEnv with
    openFile := fun path => if path = clinicsFile then .ok content
      else .error "no such file or directory" }

/-- A later reading of the clock. -/
def laterEnv : Env :=
  { offlineEnv with nowID := ⟨1700000000000000003⟩, nowStamp := ⟨1700000000000000004⟩ }

/-- A clinic with the given `emergency_24h` value. -/
def demoClinic (id flag : String) : Clinic :=
  ⟨id, "Paws", "1 Main St", "111", "222", "333", "9-18", flag, "w", "a", "22.3", "114.1", "4.5"⟩

/-- The CSV line of `demoClinic id flag`. -/
def demoLine (id flag : String) : String :=
  id ++ ",Paws,1 Main St,111,222,333,9-18," ++ flag ++ ",w,a,22.3,114.1,4.5\n"

def getRequest : Request := { Method := "GET", Body := "", Query := [] }

def optionsRequest : Request := { Method := "OPTIONS", Body := "", Query := [] }

def postRequest (body : String) : Request := { Method := "POST", Body := body, Query := [] }

/-- An OPTIONS request that carries a body. -/
def optionsWithBody : Request := { Method := "OPTIONS", Body := "x", Query := [] }

/-- The store as `main` seeds it (line 513-515), with one registered user. -/
def seededStore : Store :=
  { posts := Slice.mk
      [⟨"1", "System", "", "Welcome to PetWell Blog", "This is the start of our community.",
        "green", 10, ⟨0⟩⟩]
    users := fun k => if k = "u1" then some ⟨"u1", "Alice", "user"⟩ else none }

/-! ## Vocabulary of the properties -/

/-- The three headers `enableCors` sets. -/
def corsHeaders : List (String × String) :=
  [("Access-Control-Allow-Origin", "*"),
   ("Access-Control-Allow-Methods", "GET, POST, OPTIONS"),
   ("Access-Control-Allow-Headers", "Content-Type")]

/-- A response with status 200, content type `application/json` and the two bytes `[]`
as its whole body. -/
def IsEmptyArray200 (w : ResponseWriter) : Prop :=
  w.statusCode = 200 ∧ w.get "Content-Type" = some "application/json" ∧ w.body = "[]"

/-- A response with status 200 and content type `application/json` whose body is the
encoding of the given JSON text. -/
def jsonResponse (json : Option String) : ResponseWriter :=
  ((enableCors {}).set "Content-Type" "application/json").encode json

/-- The thirteen fields of a clinic, in the column order of the CSV schema. -/
def Clinic.fields (c : Clinic) : List String :=
  [c.ClinicID, c.Name, c.Address, c.PhoneRegular, c.PhoneEmergency, c.Whatsapp,
   c.OpeningHours, c.Emergency24h, c.WebsiteURL, c.ApplemapURL, c.Latitude, c.Longitude,
   c.Rating]

/-- The records `r_1 .. r_n` created for decoded bodies `p_1 .. p_n`, each with the clock
of its own request. -/
def createdPosts (reqs : List (Env × Request)) (ps : List BlogPost) : List BlogPost :=
  List.zipWith (fun er p => newPost er.1 p) reqs ps

/-! ## Basic facts -/

set_option maxRecDepth 100000

theorem Slice.elems_mk {α : Type} (l : List α) : (Slice.mk l).elems = l := rfl

theorem Slice.elems_append {α : Type} (s : Slice α) (x : α) :
    (s.append x).elems = s.elems ++ [x] := rfl

theorem get_ne_options : ¬ (MethodGet = MethodOptions) := by decide

theorem post_ne_options : ¬ (MethodPost = MethodOptions) := by decide

theorem post_ne_get : ¬ (MethodPost = MethodGet) := by decide

theorem enableCors_empty :
    enableCors {} = { header := corsHeaders, status := none, body := "" } := by
  decide

theorem emptyArray_written :
    IsEmptyArray200 (((enableCors {}).set "Content-Type" "application/json").write "[]") := by
  refine ⟨?_, ?_, ?_⟩ <;> decide

theorem jsonResponse_some (b : String) :
    (jsonResponse (some b)).statusCode = 200
      ∧ (jsonResponse (some b)).get "Content-Type" = some "application/json"
      ∧ (jsonResponse (some b)).body = b ++ "\n" := by
  refine ⟨rfl, rfl, ?_⟩
  simp [jsonResponse, ResponseWriter.encode, ResponseWriter.write, ResponseWriter.writeHeader,
    ResponseWriter.set, enableCors]

/-! ## What each handler does for each method -/

theorem registerHandler_post (lib : Lib) (env : Env) (r : Request) (st : Store) (u : User)
    (hm : r.Method = MethodPost) (hd : lib.decodeUser r.Body = .ok u) :
    registerHandler lib env r st =
      if u.ID = "" ∨ u.Name = "" then
        (httpError (enableCors {}) "ID and Name are required" StatusBadRequest, st)
      else (jsonResponse (some (marshalUser lib u)),
        { st with users := st.users.insert u.ID u }) := by
  simp [registerHandler, hm, hd, post_ne_options, jsonResponse]

theorem postsHandler_post (lib : Lib) (env : Env) (r : Request) (st : Store) (p : BlogPost)
    (hm : r.Method = MethodPost) (hd : lib.decodePost r.Body = .ok p) :
    postsHandler lib env r st =
      (jsonResponse (marshalPost lib (newPost env p)),
        { st with posts := Slice.prepend (newPost env p) st.posts }) := by
  simp [postsHandler, hm, hd, post_ne_options, post_ne_get, jsonResponse]

theorem postsHandler_get (lib : Lib) (env : Env) (r : Request) (st : Store)
    (hm : r.Method = MethodGet) :
    postsHandler lib env r st =
      (jsonResponse (marshalSlice (marshalPost lib) st.posts), st) := by
  simp [postsHandler, hm, get_ne_options, jsonResponse]

theorem clinicsHandler_get (lib : Lib) (env : Env) (r : Request) (st : Store)
    (hm : r.Method = MethodGet) :
    clinicsHandler lib env r st =
      match loadClinicsFromCSV lib env with
      | .error _ => (((enableCors {}).set "Content-Type" "application/json").write "[]", st)
      | .ok clinics =>
        (jsonResponse (marshalSlice (fun c => some (marshalClinic lib c)) clinics), st) := by
  simp [clinicsHandler, hm, get_ne_options, jsonResponse]

theorem emergencyClinicsHandler_get (lib : Lib) (env : Env) (r : Request) (st : Store)
    (hm : r.Method = MethodGet) :
    emergencyClinicsHandler lib env r st =
      match loadClinicsFromCSV lib env with
      | .error _ => (((enableCors {}).set "Content-Type" "application/json").write "[]", st)
      | .ok allClinics =>
        (jsonResponse (marshalSlice (fun c => some (marshalClinic lib c))
          (filterEmergency lib allClinics)), st) := by
  simp [emergencyClinicsHandler, hm, get_ne_options, jsonResponse]

theorem insuranceProvidersHandler_get (lib : Lib) (env : Env) (r : Request) (st : Store)
    (hm : r.Method = MethodGet) :
    insuranceProvidersHandler lib env r st =
      match openInsuranceDB lib env with
      | .error _ => (((enableCors {}).set "Content-Type" "application/json").write "[]", st)
      | .ok db =>
        match db.query providersQuery [] with
        | .error _ => (((enableCors {}).set "Content-Type" "application/json").write "[]", st)
        | .ok rows =>
          (jsonResponse (marshalSlice (marshalProvider lib) (scanProviders lib rows)), st) := by
  simp [insuranceProvidersHandler, hm, get_ne_options, jsonResponse]

theorem coverageLimitsHandler_get (lib : Lib) (env : Env) (r : Request) (st : Store)
    (hm : r.Method = MethodGet) :
    coverageLimitsHandler lib env r st =
      match openInsuranceDB lib env with
      | .error _ => (((enableCors {}).set "Content-Type" "application/json").write "[]", st)
      | .ok db =>
        match db.query
            (coverageQuery (queryGet r.Query "provider_key") (queryGet r.Query "level")).1
            (coverageQuery (queryGet r.Query "provider_key") (queryGet r.Query "level")).2 with
        | .error _ => (((enableCors {}).set "Content-Type" "application/json").write "[]", st)
        | .ok rows =>
          (jsonResponse (marshalSlice (fun c => some (marshalLimit lib c))
            (scanLimits lib rows)), st) := by
  simp [coverageLimitsHandler, hm, get_ne_options, jsonResponse]

theorem serviceSubcategoriesHandler_get (lib : Lib) (env : Env) (r : Request) (st : Store)
    (hm : r.Method = MethodGet) :
    serviceSubcategoriesHandler lib env r st =
      match openInsuranceDB lib env with
      | .error _ => (((enableCors {}).set "Content-Type" "application/json").write "[]", st)
      | .ok db =>
        match db.query subcategoriesQuery [] with
        | .error _ => (((enableCors {}).set "Content-Type" "application/json").write "[]", st)
        | .ok rows =>
          (jsonResponse (marshalSlice (fun s => some (marshalSubcategory lib s))
            (scanSubcategories lib rows)), st) := by
  simp [serviceSubcategoriesHandler, hm, get_ne_options, jsonResponse]

/-! ## Posts -/

theorem serve_posts (lib : Lib) (reqs : List (Env × Request)) (ps : List BlogPost)
    (hreqs : List.Forall₂
      (fun er p => er.2.Method = MethodPost ∧ lib.decodePost er.2.Body = .ok p) reqs ps) :
    ∀ s : Store,
      (serve postsHandler lib reqs s).1
          = (createdPosts reqs ps).map (fun r => jsonResponse (marshalPost lib r))
        ∧ (serve postsHandler lib reqs s).2.posts.elems
          = (createdPosts reqs ps).reverse ++ s.posts.elems
        ∧ (serve postsHandler lib reqs s).2.users = s.users := by
  induction hreqs with
  | nil => intro s; simp [serve, createdPosts]
  | @cons er p rest ps1 hhead _ ih =>
    intro s
    obtain ⟨h1, h2, h3⟩ :=
      ih { s with posts := Slice.prepend (newPost er.1 p) s.posts }
    have hpost := postsHandler_post lib er.1 er.2 s p hhead.1 hhead.2
    refine ⟨?_, ?_, ?_⟩
    · simp only [serve, hpost, h1, createdPosts, List.zipWith_cons_cons, List.map_cons]
    · simp only [serve, hpost]
      rw [h2]
      simp [createdPosts, Slice.prepend, Slice.elems_mk]
    · simp only [serve, hpost, h3]

theorem createdPosts_length (lib : Lib) (reqs : List (Env × Request)) (ps : List BlogPost)
    (hreqs : List.Forall₂
      (fun er p => er.2.Method = MethodPost ∧ lib.decodePost er.2.Body = .ok p) reqs ps) :
    (createdPosts reqs ps).length = reqs.length := by
  have hlen := hreqs.length_eq
  simp [createdPosts, hlen]

/-- C1: after any sequence of `POST /posts` requests with decodable bodies `p_1 .. p_n`,
handled in order from any initial store `s`, the i-th response carries the record `r_i`,
the stored list is `[r_n, ..., r_1]` followed by the posts of `s` unchanged (so the last
submitted post is first, the list grew by exactly `n`, the old posts keep their content
and order), the user registry is untouched, and `GET /posts` serves exactly that list. -/
theorem posts_served_newest_first (lib : Lib) (s : Store) (reqs : List (Env × Request))
    (ps : List BlogPost)
    (hreqs : List.Forall₂
      (fun er p => er.2.Method = MethodPost ∧ lib.decodePost er.2.Body = .ok p) reqs ps) :
    (serve postsHandler lib reqs s).1
        = (createdPosts reqs ps).map (fun r => jsonResponse (marshalPost lib r))
      ∧ (serve postsHandler lib reqs s).2.posts.elems
        = (createdPosts reqs ps).reverse ++ s.posts.elems
      ∧ (serve postsHandler lib reqs s).2.posts.elems.length
        = s.posts.elems.length + reqs.length
      ∧ (serve postsHandler lib reqs s).2.posts.elems.take reqs.length
        = (createdPosts reqs ps).reverse
      ∧ (serve postsHandler lib reqs s).2.posts.elems.drop reqs.length = s.posts.elems
      ∧ (∀ r, (createdPosts reqs ps).getLast? = some r →
          (serve postsHandler lib reqs s).2.posts.elems.head? = some r)
      ∧ (serve postsHandler lib reqs s).2.users = s.users
      ∧ ∀ (env : Env) (g : Request), g.Method = MethodGet →
          postsHandler lib env g (serve postsHandler lib reqs s).2
            = (jsonResponse (marshalSlice (marshalPost lib)
                (serve postsHandler lib reqs s).2.posts), (serve postsHandler lib reqs s).2) := by
  obtain ⟨h1, h2, h3⟩ := serve_posts lib reqs ps hreqs s
  have hlen := createdPosts_length lib reqs ps hreqs
  have hrev : (createdPosts reqs ps).reverse.length = reqs.length := by
    rw [List.length_reverse, hlen]
  refine ⟨h1, h2, ?_, ?_, ?_, ?_, h3, ?_⟩
  · rw [h2, List.length_append, hrev, Nat.add_comm]
  · rw [h2, List.take_left' hrev]
  · rw [h2, List.drop_left' hrev]
  · intro r hr
    rw [h2]
    have hh : (createdPosts reqs ps).reverse.head? = some r := by
      rw [List.head?_reverse, hr]
    cases hrs : (createdPosts reqs ps).reverse with
    | nil => rw [hrs] at hh; simp at hh
    | cons a l => rw [hrs] at hh; simpa using hh
  · intro env g hg
    exact postsHandler_get lib env g _ hg

/-- Witness of C1: two posts submitted to the initial store, then read back. -/
theorem posts_served_newest_first_witness :
    (serve postsHandler demoLib
        [(offlineEnv, postRequest "\x7b\"title\":\"First\"\x7d"),
         (laterEnv, postRequest "\x7b\"title\":\"Second\",\"imageColor\":\"teal\"\x7d")]
        Store.initial).2.posts.elems
      = [⟨"1700000000000000003", "", "", "Second", "", "teal", 0, ⟨1700000000000000004⟩⟩,
         ⟨"1700000000000000001", "", "", "First", "", "blue", 0, ⟨1700000000000000002⟩⟩] :=
  (posts_served_newest_first demoLib Store.initial
    [(offlineEnv, postRequest "\x7b\"title\":\"First\"\x7d"),
     (laterEnv, postRequest "\x7b\"title\":\"Second\",\"imageColor\":\"teal\"\x7d")]
    [⟨"", "", "", "First", "", "", 0, ⟨0⟩⟩, ⟨"", "", "", "Second", "", "teal", 0, ⟨0⟩⟩]
    (List.Forall₂.cons ⟨rfl, rfl⟩ (List.Forall₂.cons ⟨rfl, rfl⟩ List.Forall₂.nil))).2.1

/-- C8: the post that `POST /posts` stores and returns for a decodable body `p` is
`newPost env p`, whose `imageColor` is `"blue"` when `p.imageColor` is empty and
`p.imageColor` itself otherwise; the client-supplied text fields and `likes` are kept. -/
theorem post_image_color_default (lib : Lib) (env : Env) (r : Request) (st : Store)
    (p : BlogPost) (hm : r.Method = MethodPost) (hd : lib.decodePost r.Body = .ok p) :
    (postsHandler lib env r st).1 = jsonResponse (marshalPost lib (newPost env p))
      ∧ (postsHandler lib env r st).2.posts.elems.head? = some (newPost env p)
      ∧ (p.ImageColor = "" → (newPost env p).ImageColor = "blue")
      ∧ (p.ImageColor ≠ "" → (newPost env p).ImageColor = p.ImageColor)
      ∧ (newPost env p).AuthorName = p.AuthorName
      ∧ (newPost env p).AuthorAvatar = p.AuthorAvatar
      ∧ (newPost env p).Title = p.Title
      ∧ (newPost env p).Content = p.Content
      ∧ (newPost env p).Likes = p.Likes := by
  rw [postsHandler_post lib env r st p hm hd]
  refine ⟨rfl, rfl, ?_, ?_, ?_, ?_, ?_, ?_, ?_⟩
  · intro h; simp [newPost, h]
  · intro h; simp [newPost, h]
  all_goals
    by_cases h : p.ImageColor = "" <;> simp [newPost, h]

/-- Witness of C8: a body without colour is stored as blue. -/
theorem post_image_color_default_witness :
    (newPost offlineEnv ⟨"", "", "", "First", "", "", 0, ⟨0⟩⟩).ImageColor = "blue" :=
  (post_image_color_default demoLib offlineEnv (postRequest "\x7b\"title\":\"First\"\x7d")
    Store.initial ⟨"", "", "", "First", "", "", 0, ⟨0⟩⟩ rfl rfl).2.2.1 rfl

/-! ## Registration -/

theorem httpError_status (msg : String) (code : Nat) :
    (httpError (enableCors {}) msg code).statusCode = code := by
  simp [httpError, ResponseWriter.statusCode, ResponseWriter.write, ResponseWriter.writeHeader,
    ResponseWriter.set, enableCors]

/-- C2: for a `POST /register` whose body decodes to a user `u`, the answer is 400 exactly
when `u.id` or `u.name` is empty, and then the store is left as it was; otherwise the
answer is 200 with content type `application/json`, the body is the JSON text of `u` itself
(id, name and role as decoded, whatever the role), and afterwards the registry maps `u.id`
to `u`, every other key and the post list being unchanged. -/
theorem register_contract (lib : Lib) (env : Env) (r : Request) (st : Store) (u : User)
    (hm : r.Method = MethodPost) (hd : lib.decodeUser r.Body = .ok u) :
    ((registerHandler lib env r st).1.statusCode = 400 ↔ (u.ID = "" ∨ u.Name = ""))
      ∧ ((u.ID = "" ∨ u.Name = "") → (registerHandler lib env r st).2 = st)
      ∧ (¬ (u.ID = "" ∨ u.Name = "") →
          (registerHandler lib env r st).1.statusCode = 200
            ∧ (registerHandler lib env r st).1.get "Content-Type" = some "application/json"
            ∧ (registerHandler lib env r st).1.body = marshalUser lib u ++ "\n"
            ∧ (registerHandler lib env r st).2.users u.ID = some u
            ∧ (∀ k, k ≠ u.ID →
                (registerHandler lib env r st).2.users k = st.users k)
            ∧ (registerHandler lib env r st).2.posts = st.posts) := by
  rw [registerHandler_post lib env r st u hm hd]
  by_cases h : u.ID = "" ∨ u.Name = ""
  · rw [if_pos h]
    refine ⟨?_, fun _ => rfl, fun hn => absurd h hn⟩
    constructor
    · intro _; exact h
    · intro _; exact httpError_status _ _
  · rw [if_neg h]
    obtain ⟨hs, hc, hb⟩ := jsonResponse_some (marshalUser lib u)
    refine ⟨?_, fun hp => absurd hp h, fun _ => ⟨hs, hc, hb, ?_, ?_, rfl⟩⟩
    · constructor
      · intro h400
        rw [hs] at h400
        exact absurd h400 (by decide)
      · intro hp; exact absurd hp h
    · simp [UserMap.insert]
    · intro k hk
      simp [UserMap.insert, hk]

/-- Witness of C2: the body `{"id":"u1","name":"Alice"}` is echoed with an empty role and
status 200, the body `{"name":"Alice"}` is answered with 400. -/
theorem register_contract_witness :
    ((registerHandler demoLib offlineEnv
          (postRequest "\x7b\"id\":\"u1\",\"name\":\"Alice\"\x7d") Store.initial).1.statusCode = 200
        ∧ (registerHandler demoLib offlineEnv
          (postRequest "\x7b\"id\":\"u1\",\"name\":\"Alice\"\x7d") Store.initial).1.body
            = "\x7b\"id\":\"u1\",\"name\":\"Alice\",\"role\":\"\"\x7d\n"
        ∧ (registerHandler demoLib offlineEnv
          (postRequest "\x7b\"id\":\"u1\",\"name\":\"Alice\"\x7d") Store.initial).2.users "u1"
            = some ⟨"u1", "Alice", ""⟩)
      ∧ (registerHandler demoLib offlineEnv
          (postRequest "\x7b\"name\":\"Alice\"\x7d") Store.initial).1.statusCode = 400 :=
  ⟨⟨((register_contract demoLib offlineEnv
        (postRequest "\x7b\"id\":\"u1\",\"name\":\"Alice\"\x7d") Store.initial
        ⟨"u1", "Alice", ""⟩ rfl rfl).2.2 (by decide)).1,
      ((register_contract demoLib offlineEnv
        (postRequest "\x7b\"id\":\"u1\",\"name\":\"Alice\"\x7d") Store.initial
        ⟨"u1", "Alice", ""⟩ rfl rfl).2.2 (by decide)).2.2.1,
      ((register_contract demoLib offlineEnv
        (postRequest "\x7b\"id\":\"u1\",\"name\":\"Alice\"\x7d") Store.initial
        ⟨"u1", "Alice", ""⟩ rfl rfl).2.2 (by decide)).2.2.2.1⟩,
    (register_contract demoLib offlineEnv (postRequest "\x7b\"name\":\"Alice\"\x7d")
      Store.initial ⟨"", "Alice", ""⟩ rfl rfl).1.2 (Or.inl rfl)⟩

/-! ## Degraded answers of the reference readers -/

/-- C6: on a GET request, each of `clinicsHandler`, `emergencyClinicsHandler`,
`insuranceProvidersHandler`, `coverageLimitsHandler` and `serviceSubcategoriesHandler`
answers with status 200, content type `application/json` and the body `[]` whenever the
step that obtains its data fails: `loadClinicsFromCSV` for the first two, `openInsuranceDB`
or the database query for the other three. -/
theorem readers_degrade_to_empty_array (lib : Lib) (env : Env) (r : Request) (st : Store)
    (hm : r.Method = MethodGet) :
    (∀ e, loadClinicsFromCSV lib env = .error e →
        IsEmptyArray200 (clinicsHandler lib env r st).1
          ∧ IsEmptyArray200 (emergencyClinicsHandler lib env r st).1)
      ∧ (∀ e, openInsuranceDB lib env = .error e →
        IsEmptyArray200 (insuranceProvidersHandler lib env r st).1
          ∧ IsEmptyArray200 (coverageLimitsHandler lib env r st).1
          ∧ IsEmptyArray200 (serviceSubcategoriesHandler lib env r st).1)
      ∧ (∀ db e, openInsuranceDB lib env = .ok db →
        (db.query providersQuery [] = .error e →
            IsEmptyArray200 (insuranceProvidersHandler lib env r st).1)
          ∧ (db.query
                (coverageQuery (queryGet r.Query "provider_key") (queryGet r.Query "level")).1
                (coverageQuery (queryGet r.Query "provider_key") (queryGet r.Query "level")).2
              = .error e →
            IsEmptyArray200 (coverageLimitsHandler lib env r st).1)
          ∧ (db.query subcategoriesQuery [] = .error e →
            IsEmptyArray200 (serviceSubcategoriesHandler lib env r st).1)) := by
  refine ⟨?_, ?_, ?_⟩
  · intro e he
    rw [clinicsHandler_get lib env r st hm, emergencyClinicsHandler_get lib env r st hm, he]
    exact ⟨emptyArray_written, emptyArray_written⟩
  · intro e he
    rw [insuranceProvidersHandler_get lib env r st hm, coverageLimitsHandler_get lib env r st hm,
      serviceSubcategoriesHandler_get lib env r st hm, he]
    exact ⟨emptyArray_written, emptyArray_written, emptyArray_written⟩
  · intro db e hdb
    refine ⟨?_, ?_, ?_⟩
    · intro hq
      rw [insuranceProvidersHandler_get lib env r st hm, hdb]
      simp only [hq]
      exact emptyArray_written
    · intro hq
      rw [coverageLimitsHandler_get lib env r st hm, hdb]
      simp only [hq]
      exact emptyArray_written
    · intro hq
      rw [serviceSubcategoriesHandler_get lib env r st hm, hdb]
      simp only [hq]
      exact emptyArray_written

/-- Witness of C6: with no `clinics.csv` and no database file the five handlers answer
`[]`; so do the three insurance handlers when the database opens and rejects the query. -/
theorem readers_degrade_to_empty_array_witness :
    (IsEmptyArray200 (clinicsHandler demoLib offlineEnv getRequest Store.initial).1
        ∧ IsEmptyArray200 (emergencyClinicsHandler demoLib offlineEnv getRequest Store.initial).1)
      ∧ (IsEmptyArray200 (insuranceProvidersHandler demoLib offlineEnv getRequest Store.initial).1
        ∧ IsEmptyArray200 (coverageLimitsHandler demoLib offlineEnv getRequest Store.initial).1
        ∧ IsEmptyArray200
            (serviceSubcategoriesHandler demoLib offlineEnv getRequest Store.initial).1)
      ∧ IsEmptyArray200 (insuranceProvidersHandler demoLib brokenDbEnv getRequest Store.initial).1
      ∧ IsEmptyArray200 (coverageLimitsHandler demoLib brokenDbEnv getRequest Store.initial).1
      ∧ IsEmptyArray200
          (serviceSubcategoriesHandler demoLib brokenDbEnv getRequest Store.initial).1 :=
  ⟨(readers_degrade_to_empty_array demoLib offlineEnv getRequest Store.initial rfl).1
      "no such file or directory" rfl,
    (readers_degrade_to_empty_array demoLib offlineEnv getRequest Store.initial rfl).2.1
      "unable to open database file" rfl,
    ((readers_degrade_to_empty_array demoLib brokenDbEnv getRequest Store.initial rfl).2.2
      { query := fun _ _ => .error "no such table" } "no such table" rfl).1 rfl,
    ((readers_degrade_to_empty_array demoLib brokenDbEnv getRequest Store.initial rfl).2.2
      { query := fun _ _ => .error "no such table" } "no such table" rfl).2.1 rfl,
    ((readers_degrade_to_empty_array demoLib brokenDbEnv getRequest Store.initial rfl).2.2
      { query := fun _ _ => .error "no such table" } "no such table" rfl).2.2 rfl⟩

/-! ## Preflight requests -/

/-- C10: for each of the eight registered handlers, whatever the request body, the
environment and the store, an OPTIONS request is answered with exactly the three CORS
headers, an empty body and no status written (so the client receives 200, never 405), and
the post list and the user registry are left unchanged. -/
theorem options_preflight_all_handlers (lib : Lib) (env : Env) (r : Request) (st : Store)
    (hm : r.Method = MethodOptions) :
    routes.length = 8
      ∧ ∀ ph ∈ routes,
        (ph.2 lib env r st).1.header = corsHeaders
          ∧ (ph.2 lib env r st).1.body = ""
          ∧ (ph.2 lib env r st).1.status = none
          ∧ (ph.2 lib env r st).1.statusCode = 200
          ∧ (ph.2 lib env r st).2 = st := by
  refine ⟨rfl, ?_⟩
  intro ph hph
  have key : ph.2 lib env r st = (enableCors {}, st) := by
    simp only [routes, List.mem_cons, List.mem_singleton, List.not_mem_nil, or_false] at hph
    rcases hph with h | h | h | h | h | h | h | h <;> subst h
    · simp [vaccinesHandler, hm]
    · simp [registerHandler, hm]
    · simp [postsHandler, hm]
    · simp [clinicsHandler, hm]
    · simp [emergencyClinicsHandler, hm]
    · simp [insuranceProvidersHandler, hm]
    · simp [coverageLimitsHandler, hm]
    · simp [serviceSubcategoriesHandler, hm]
  rw [key, enableCors_empty]
  exact ⟨rfl, rfl, rfl, rfl, rfl⟩

/-- Witness of C10: an OPTIONS request with a body, on a store that holds a post, sent to
`/register` (POST only) and to `/clinics` (GET only). -/
theorem options_preflight_all_handlers_witness :
    ((registerHandler demoLib offlineEnv optionsWithBody seededStore).1.header = corsHeaders
        ∧ (registerHandler demoLib offlineEnv optionsWithBody seededStore).1.body = ""
        ∧ (registerHandler demoLib offlineEnv optionsWithBody seededStore).1.status = none
        ∧ (registerHandler demoLib offlineEnv optionsWithBody seededStore).1.statusCode = 200
        ∧ (registerHandler demoLib offlineEnv optionsWithBody seededStore).2 = seededStore)
      ∧ ((clinicsHandler demoLib offlineEnv optionsWithBody seededStore).1.header = corsHeaders
        ∧ (clinicsHandler demoLib offlineEnv optionsWithBody seededStore).1.body = ""
        ∧ (clinicsHandler demoLib offlineEnv optionsWithBody seededStore).1.status = none
        ∧ (clinicsHandler demoLib offlineEnv optionsWithBody seededStore).1.statusCode = 200
        ∧ (clinicsHandler demoLib offlineEnv optionsWithBody seededStore).2 = seededStore) :=
  ⟨(options_preflight_all_handlers demoLib offlineEnv optionsWithBody seededStore rfl).2
      ("/register", registerHandler) (List.Mem.tail _ (List.Mem.head _)),
    (options_preflight_all_handlers demoLib offlineEnv optionsWithBody seededStore rfl).2
      ("/clinics", clinicsHandler)
      (List.Mem.tail _ (List.Mem.tail _ (List.Mem.tail _ (List.Mem.head _))))⟩

/-! ## Clinics -/

theorem foldl_append_elems {α : Type} (p : α → Bool) (l : List α) :
    ∀ acc : Slice α,
      (l.foldl (fun acc c => if p c then acc.append c else acc) acc).elems
        = acc.elems ++ l.filter p := by
  induction l with
  | nil => intro acc; simp
  | cons a l ih =>
    intro acc
    rw [List.foldl_cons, ih]
    by_cases h : p a
    · simp [h, Slice.elems_append]
    · simp [h]

theorem foldl_append_nil {α : Type} (p : α → Bool) (l : List α) (hl : l.filter p = []) :
    ∀ acc : Slice α, l.foldl (fun acc c => if p c then acc.append c else acc) acc = acc := by
  induction l with
  | nil => intro acc; rfl
  | cons a l ih =>
    intro acc
    by_cases h : p a
    · simp [List.filter_cons, h] at hl
    · have hl1 : l.filter p = [] := by simpa [List.filter_cons, h] using hl
      rw [List.foldl_cons, ih hl1]
      simp [h]

theorem filterEmergency_elems (lib : Lib) (L : Slice Clinic) :
    (filterEmergency lib L).elems = L.elems.filter (isEmergency lib) := by
  unfold filterEmergency
  rw [foldl_append_elems (isEmergency lib) L.elems Slice.nil]
  rfl

theorem filterEmergency_nil (lib : Lib) (L : Slice Clinic)
    (h : L.elems.filter (isEmergency lib) = []) : filterEmergency lib L = Slice.nil := by
  unfold filterEmergency
  exact foldl_append_nil (isEmergency lib) L.elems h Slice.nil

theorem rowsToClinics_eq_foldl (records : List (List String)) :
    rowsToClinics records
      = (records.foldl
          (fun acc row => if decide (13 ≤ row.length) then acc.append (clinicOfRow row) else acc)
          Slice.nil) := by
  unfold rowsToClinics
  congr 1
  funext acc row
  by_cases h : row.length < 13
  · have h1 : ¬ 13 ≤ row.length := by omega
    simp [h, h1]
  · have h1 : 13 ≤ row.length := by omega
    simp [h, h1]

theorem foldl_append_map_elems {α β : Type} (p : α → Bool) (f : α → β) (l : List α) :
    ∀ acc : Slice β,
      (l.foldl (fun acc c => if p c then acc.append (f c) else acc) acc).elems
        = acc.elems ++ (l.filter p).map f := by
  induction l with
  | nil => intro acc; simp
  | cons a l ih =>
    intro acc
    rw [List.foldl_cons, ih]
    by_cases h : p a
    · simp [h, Slice.elems_append]
    · simp [h]

theorem foldl_append_map_nil {α β : Type} (p : α → Bool) (f : α → β) (l : List α)
    (hl : l.filter p = []) :
    ∀ acc : Slice β,
      l.foldl (fun acc c => if p c then acc.append (f c) else acc) acc = acc := by
  induction l with
  | nil => intro acc; rfl
  | cons a l ih =>
    intro acc
    by_cases h : p a
    · simp [List.filter_cons, h] at hl
    · have hl1 : l.filter p = [] := by simpa [List.filter_cons, h] using hl
      rw [List.foldl_cons, ih hl1]
      simp [h]

theorem rowsToClinics_elems (records : List (List String)) :
    (rowsToClinics records).elems
      = (records.filter (fun row => decide (13 ≤ row.length))).map clinicOfRow := by
  rw [rowsToClinics_eq_foldl,
    foldl_append_map_elems (fun row => decide (13 ≤ row.length)) clinicOfRow records Slice.nil]
  rfl

theorem rowsToClinics_nil (records : List (List String))
    (h : records.filter (fun row => decide (13 ≤ row.length)) = []) :
    rowsToClinics records = Slice.nil := by
  rw [rowsToClinics_eq_foldl]
  exact foldl_append_map_nil (fun row => decide (13 ≤ row.length)) clinicOfRow records h
    Slice.nil

theorem loadClinicsFromCSV_ok (lib : Lib) (env : Env) (L : Slice Clinic)
    (h : loadClinicsFromCSV lib env = .ok L) : ∃ records, L = rowsToClinics records := by
  unfold loadClinicsFromCSV at h
  simp only at h
  split at h
  · cases h
  · split at h
    · cases h
    · split at h
      · cases h
      · rename_i records _
        injection h with h
        exact ⟨records, h.symm⟩

theorem loaded_empty_is_nil (lib : Lib) (env : Env) (L : Slice Clinic)
    (h : loadClinicsFromCSV lib env = .ok L) (hempty : L.elems = []) : L = Slice.nil := by
  obtain ⟨records, rfl⟩ := loadClinicsFromCSV_ok lib env L h
  apply rowsToClinics_nil
  rw [rowsToClinics_elems] at hempty
  simpa using hempty

theorem flag_spaced_true (lib : Lib) : ToUpper lib (TrimSpace " true ") = "TRUE" := by rfl

theorem flag_upper_true (lib : Lib) : ToUpper lib (TrimSpace "TRUE") = "TRUE" := by rfl

theorem flag_trailing_space (lib : Lib) : ToUpper lib (TrimSpace "true ") = "TRUE" := by rfl

theorem flag_yes (lib : Lib) : ToUpper lib (TrimSpace "Yes") = "YES" := by rfl

theorem flag_false (lib : Lib) : ToUpper lib (TrimSpace "false") = "FALSE" := by rfl

theorem flag_empty (lib : Lib) : ToUpper lib (TrimSpace "") = "" := by rfl

/-- C3: when `loadClinicsFromCSV` returns the list `L`, `GET /emergency-clinics` answers
with the JSON encoding of `filterEmergency lib L`, whose elements are exactly the clinics
of `L` with `ToUpper (TrimSpace emergency_24h) = "TRUE"`, in the order of `L`: an
order-preserving sublist in which every qualifying clinic occurs as often as in `L`, no
other clinic occurs, and the clinics are unchanged. The values `" true "` and `"TRUE"`
qualify, `"Yes"` and `"false"` do not. -/
theorem emergency_clinics_are_the_true_flagged (lib : Lib) (env : Env) (r : Request)
    (st : Store) (L : Slice Clinic) (hm : r.Method = MethodGet)
    (hL : loadClinicsFromCSV lib env = .ok L) :
    (emergencyClinicsHandler lib env r st).1
        = jsonResponse (marshalSlice (fun c => some (marshalClinic lib c))
            (filterEmergency lib L))
      ∧ (filterEmergency lib L).elems
        = L.elems.filter (fun c => ToUpper lib (TrimSpace c.Emergency24h) == "TRUE")
      ∧ (filterEmergency lib L).elems.Sublist L.elems
      ∧ (∀ c, ToUpper lib (TrimSpace c.Emergency24h) = "TRUE" →
          (filterEmergency lib L).elems.count c = L.elems.count c)
      ∧ (∀ c, ToUpper lib (TrimSpace c.Emergency24h) ≠ "TRUE" →
          c ∉ (filterEmergency lib L).elems)
      ∧ (∀ c : Clinic, c.Emergency24h = " true " ∨ c.Emergency24h = "TRUE" →
          isEmergency lib c = true)
      ∧ (∀ c : Clinic, c.Emergency24h = "Yes" ∨ c.Emergency24h = "false" →
          isEmergency lib c = false) := by
  have helems := filterEmergency_elems lib L
  refine ⟨?_, helems, ?_, ?_, ?_, ?_, ?_⟩
  · rw [emergencyClinicsHandler_get lib env r st hm, hL]
  · rw [helems]; exact List.filter_sublist _
  · intro c hc
    rw [helems]
    apply List.count_filter
    simp [isEmergency, hc]
  · intro c hc hmem
    rw [helems, List.mem_filter] at hmem
    have h2 := hmem.2
    simp [isEmergency] at h2
    exact hc h2
  · intro c hc
    rcases hc with h | h
    · simp [isEmergency, h, flag_spaced_true]
    · simp [isEmergency, h, flag_upper_true]
  · intro c hc
    rcases hc with h | h
    · rw [isEmergency, h, flag_yes]; decide
    · rw [isEmergency, h, flag_false]; decide

/-- Witness of C3: a table with the flags `" true "`, `"Yes"`, `"TRUE"`, `"false"`. -/
theorem emergency_clinics_are_the_true_flagged_witness :
    (filterEmergency demoLib (Slice.mk [demoClinic "c1" " true ", demoClinic "c2" "Yes",
        demoClinic "c3" "TRUE", demoClinic "c4" "false"])).elems
      = [demoClinic "c1" " true ", demoClinic "c3" "TRUE"] :=
  (emergency_clinics_are_the_true_flagged demoLib
    (csvEnv (demoHeader ++ demoLine "c1" " true " ++ demoLine "c2" "Yes"
      ++ demoLine "c3" "TRUE" ++ demoLine "c4" "false"))
    getRequest Store.initial
    (Slice.mk [demoClinic "c1" " true ", demoClinic "c2" "Yes", demoClinic "c3" "TRUE",
      demoClinic "c4" "false"]) rfl (by rfl)).2.1.trans (by decide)

/-- Counterexample to C4 as stated: a clinic whose `emergency_24h` is `"true "` (with a
trailing space) is loaded from the table and appears in the emergency list. -/
theorem trailing_space_true_is_emergency :
    (demoClinic "c1" "true ").Emergency24h = "true "
      ∧ loadClinicsFromCSV demoLib (csvEnv (demoHeader ++ demoLine "c1" "true "))
        = .ok (Slice.mk [demoClinic "c1" "true "])
      ∧ demoClinic "c1" "true "
        ∈ (filterEmergency demoLib (Slice.mk [demoClinic "c1" "true "])).elems
      ∧ ¬ (∀ (lib : Lib) (L : Slice Clinic) (c : Clinic), c ∈ L.elems →
            (c.Emergency24h = "true " ∨ c.Emergency24h = "Yes" ∨ c.Emergency24h = "") →
            c ∉ (filterEmergency lib L).elems) := by
  have hmem : demoClinic "c1" "true "
      ∈ (filterEmergency demoLib (Slice.mk [demoClinic "c1" "true "])).elems := by decide
  refine ⟨rfl, by rfl, hmem, ?_⟩
  intro hall
  exact hall demoLib (Slice.mk [demoClinic "c1" "true "]) (demoClinic "c1" "true ")
    (by decide) (Or.inl rfl) hmem

/-- C4, amended: a loaded clinic whose `emergency_24h` is `"Yes"` or the empty string never
appears in the emergency list, whereas one whose value is `"true "` (trailing space) always
does, the value being trimmed before the comparison. -/
theorem emergency_filter_yes_empty_excluded (lib : Lib) (L : Slice Clinic) (c : Clinic)
    (hc : c ∈ L.elems) :
    ((c.Emergency24h = "Yes" ∨ c.Emergency24h = "") → c ∉ (filterEmergency lib L).elems)
      ∧ (c.Emergency24h = "true " → c ∈ (filterEmergency lib L).elems) := by
  rw [filterEmergency_elems, List.mem_filter]
  constructor
  · intro h hmem
    have h2 := hmem.2
    rcases h with h | h
    · rw [isEmergency, h, flag_yes] at h2; exact absurd h2 (by decide)
    · rw [isEmergency, h, flag_empty] at h2; exact absurd h2 (by decide)
  · intro h
    refine ⟨hc, ?_⟩
    simp [isEmergency, h, flag_trailing_space]

/-- Witness of the amended C4: of three loaded clinics flagged `"true "`, `"Yes"` and `""`,
the second and third are left out and the first is kept. -/
theorem emergency_filter_yes_empty_excluded_witness :
    demoClinic "c2" "Yes"
        ∉ (filterEmergency demoLib (Slice.mk [demoClinic "c1" "true ", demoClinic "c2" "Yes",
            demoClinic "c3" ""])).elems
      ∧ demoClinic "c3" ""
        ∉ (filterEmergency demoLib (Slice.mk [demoClinic "c1" "true ", demoClinic "c2" "Yes",
            demoClinic "c3" ""])).elems
      ∧ demoClinic "c1" "true "
        ∈ (filterEmergency demoLib (Slice.mk [demoClinic "c1" "true ", demoClinic "c2" "Yes",
            demoClinic "c3" ""])).elems :=
  ⟨(emergency_filter_yes_empty_excluded demoLib
      (Slice.mk [demoClinic "c1" "true ", demoClinic "c2" "Yes", demoClinic "c3" ""])
      (demoClinic "c2" "Yes") (by decide)).1 (Or.inl rfl),
    (emergency_filter_yes_empty_excluded demoLib
      (Slice.mk [demoClinic "c1" "true ", demoClinic "c2" "Yes", demoClinic "c3" ""])
      (demoClinic "c3" "") (by decide)).1 (Or.inr rfl),
    (emergency_filter_yes_empty_excluded demoLib
      (Slice.mk [demoClinic "c1" "true ", demoClinic "c2" "Yes", demoClinic "c3" ""])
      (demoClinic "c1" "true ") (by decide)).2 rfl⟩

theorem clinicOfRow_fields (row : List String) (h : 13 ≤ row.length) :
    (clinicOfRow row).fields = row.take 13 := by
  rcases row with _ | ⟨a0, _ | ⟨a1, _ | ⟨a2, _ | ⟨a3, _ | ⟨a4, _ | ⟨a5, _ | ⟨a6, _ | ⟨a7,
    _ | ⟨a8, _ | ⟨a9, _ | ⟨a10, _ | ⟨a11, _ | ⟨a12, rest⟩⟩⟩⟩⟩⟩⟩⟩⟩⟩⟩⟩⟩
  all_goals first
    | (simp at h; done)
    | (simp only [List.length_cons, List.length_nil] at h; omega)
    | rfl

theorem clinicOfRow_take (row : List String) : clinicOfRow (row.take 13) = clinicOfRow row := by
  rcases row with _ | ⟨a0, _ | ⟨a1, _ | ⟨a2, _ | ⟨a3, _ | ⟨a4, _ | ⟨a5, _ | ⟨a6, _ | ⟨a7,
    _ | ⟨a8, _ | ⟨a9, _ | ⟨a10, _ | ⟨a11, _ | ⟨a12, rest⟩⟩⟩⟩⟩⟩⟩⟩⟩⟩⟩⟩⟩
  all_goals rfl

/-- C5: for every list of data records, the loop of `loadClinicsFromCSV` returns, in input
order, one `Clinic` per record that has at least 13 fields and nothing for the others (no
error either), so that the output has as many clinics as there are such records; a record
with at least 13 fields gives the clinic whose thirteen fields, in schema order
(clinic_id, name, address, phone_regular, phone_emergency, whatsapp, opening_hours,
emergency_24h, website_url, applemap_url, latitude, longitude, rating), are fields 0..12
of the record, the fields beyond the 13th being ignored; and every list that
`loadClinicsFromCSV` returns is the output of that loop. -/
theorem rows_to_clinics_positional (records : List (List String)) :
    (rowsToClinics records).elems
        = (records.filter (fun row => decide (13 ≤ row.length))).map clinicOfRow
      ∧ (rowsToClinics records).elems.length
        = records.countP (fun row => decide (13 ≤ row.length))
      ∧ (∀ row : List String, 13 ≤ row.length → (clinicOfRow row).fields = row.take 13)
      ∧ (∀ row : List String, clinicOfRow (row.take 13) = clinicOfRow row)
      ∧ (∀ (lib : Lib) (env : Env) (L : Slice Clinic), loadClinicsFromCSV lib env = .ok L →
          ∃ recs, L = rowsToClinics recs) := by
  refine ⟨rowsToClinics_elems records, ?_, clinicOfRow_fields, clinicOfRow_take,
    loadClinicsFromCSV_ok⟩
  rw [rowsToClinics_elems, List.length_map, List.countP_eq_length_filter]

/-- Witness of C5: a record of 14 fields, a record of 2 fields, a record of 13 fields. -/
theorem rows_to_clinics_positional_witness :
    (rowsToClinics
        [["c1", "Paws", "1 Main St", "111", "222", "333", "9-18", "TRUE", "w", "a", "22.3",
          "114.1", "4.5", "extra"],
         ["short", "row"],
         ["c2", "Vets", "2 Side St", "444", "555", "666", "24h", "no", "x", "y", "22.4",
          "114.2", "3.9"]]).elems
        = [⟨"c1", "Paws", "1 Main St", "111", "222", "333", "9-18", "TRUE", "w", "a", "22.3",
            "114.1", "4.5"⟩,
           ⟨"c2", "Vets", "2 Side St", "444", "555", "666", "24h", "no", "x", "y", "22.4",
            "114.2", "3.9"⟩]
      ∧ (clinicOfRow ["c1", "Paws", "1 Main St", "111", "222", "333", "9-18", "TRUE", "w", "a",
          "22.3", "114.1", "4.5", "extra"]).fields
        = ["c1", "Paws", "1 Main St", "111", "222", "333", "9-18", "TRUE", "w", "a", "22.3",
          "114.1", "4.5"] :=
  ⟨(rows_to_clinics_positional
      [["c1", "Paws", "1 Main St", "111", "222", "333", "9-18", "TRUE", "w", "a", "22.3",
        "114.1", "4.5", "extra"],
       ["short", "row"],
       ["c2", "Vets", "2 Side St", "444", "555", "666", "24h", "no", "x", "y", "22.4",
        "114.2", "3.9"]]).1.trans (by decide),
    (rows_to_clinics_positional []).2.2.1
      ["c1", "Paws", "1 Main St", "111", "222", "333", "9-18", "TRUE", "w", "a", "22.3",
        "114.1", "4.5", "extra"] (by decide)⟩

/-- C7 (what the code does where the claim says `[]`): when the clinic table loads without
error and yields no clinic, `GET /clinics` answers with the body `null` followed by a
newline, and so does `GET /emergency-clinics` when no loaded clinic qualifies; the slices
are declared with `var` and stay nil when nothing is appended. -/
theorem empty_clinic_list_is_served_as_null (lib : Lib) (env : Env) (r : Request)
    (st : Store) (L : Slice Clinic) (hm : r.Method = MethodGet)
    (hL : loadClinicsFromCSV lib env = .ok L) :
    (L.elems = [] → (clinicsHandler lib env r st).1.body = "null\n")
      ∧ (L.elems.filter (isEmergency lib) = [] →
          (emergencyClinicsHandler lib env r st).1.body = "null\n") := by
  constructor
  · intro hempty
    rw [clinicsHandler_get lib env r st hm, hL, loaded_empty_is_nil lib env L hL hempty]
    exact (jsonResponse_some "null").2.2
  · intro hempty
    rw [emergencyClinicsHandler_get lib env r st hm, hL]
    dsimp only
    rw [filterEmergency_nil lib L hempty]
    exact (jsonResponse_some "null").2.2

/-- Witness of C7: a `clinics.csv` holding only the header line, and one holding a single
clinic flagged `"Yes"`. -/
theorem empty_clinic_list_is_served_as_null_witness :
    (clinicsHandler demoLib (csvEnv demoHeader) getRequest Store.initial).1.body = "null\n"
      ∧ (emergencyClinicsHandler demoLib (csvEnv demoHeader) getRequest
          Store.initial).1.body = "null\n"
      ∧ (emergencyClinicsHandler demoLib (csvEnv (demoHeader ++ demoLine "c2" "Yes"))
          getRequest Store.initial).1.body = "null\n" :=
  ⟨(empty_clinic_list_is_served_as_null demoLib (csvEnv demoHeader) getRequest Store.initial
      Slice.nil rfl (by rfl)).1 rfl,
    (empty_clinic_list_is_served_as_null demoLib (csvEnv demoHeader) getRequest Store.initial
      Slice.nil rfl (by rfl)).2 rfl,
    (empty_clinic_list_is_served_as_null demoLib (csvEnv (demoHeader ++ demoLine "c2" "Yes"))
      getRequest Store.initial (Slice.mk [demoClinic "c2" "Yes"]) rfl (by rfl)).2 (by decide)⟩

/-! ## The coverage-limits query -/

theorem coverageQuery_fst (providerKey level : String) :
    (coverageQuery providerKey level).1
      = coverageSelect ++ (if providerKey = "" then "" else " AND provider_key = ?")
          ++ (if level = "" then "" else " AND level = ?")
          ++ " ORDER BY provider_key, level, subcategory" := by
  by_cases h1 : providerKey = "" <;> by_cases h2 : level = "" <;>
    simp [coverageQuery, h1, h2]

theorem coverageQuery_snd (providerKey level : String) :
    (coverageQuery providerKey level).2
      = (if providerKey = "" then [] else [providerKey])
          ++ (if level = "" then [] else [level]) := by
  by_cases h1 : providerKey = "" <;> by_cases h2 : level = "" <;>
    simp [coverageQuery, h1, h2]

/-- C9: the SQL text `coverageLimitsHandler` builds is the fixed SELECT text, followed by
` AND provider_key = ?` exactly when `provider_key` is non-empty, then ` AND level = ?`
exactly when `level` is non-empty, then ` ORDER BY provider_key, level, subcategory`; it is
made of these constants only, so two requests that agree on which parameters are empty get
the same text whatever the values; the bound arguments are the non-empty values in the same
order, and the number of `?` in the text equals the number of arguments; on a GET with an
open database this text and these arguments are what is passed to `db.Query`. -/
theorem coverage_query_is_parameterised (providerKey level : String) :
    (coverageQuery providerKey level).1
        = coverageSelect ++ (if providerKey = "" then "" else " AND provider_key = ?")
            ++ (if level = "" then "" else " AND level = ?")
            ++ " ORDER BY provider_key, level, subcategory"
      ∧ (coverageQuery providerKey level).2
        = (if providerKey = "" then [] else [providerKey])
            ++ (if level = "" then [] else [level])
      ∧ (coverageQuery providerKey level).1.data.count '?'
        = (coverageQuery providerKey level).2.length
      ∧ (∀ providerKey2 level2 : String,
          (providerKey2 = "" ↔ providerKey = "") → (level2 = "" ↔ level = "") →
          (coverageQuery providerKey2 level2).1 = (coverageQuery providerKey level).1)
      ∧ (∀ (lib : Lib) (env : Env) (r : Request) (st : Store) (db : DB),
          r.Method = MethodGet → openInsuranceDB lib env = .ok db →
          queryGet r.Query "provider_key" = providerKey → queryGet r.Query "level" = level →
          coverageLimitsHandler lib env r st
            = match db.query (coverageQuery providerKey level).1
                  (coverageQuery providerKey level).2 with
              | .error _ =>
                (((enableCors {}).set "Content-Type" "application/json").write "[]", st)
              | .ok rows =>
                (jsonResponse (marshalSlice (fun c => some (marshalLimit lib c))
                  (scanLimits lib rows)), st)) := by
  refine ⟨coverageQuery_fst _ _, coverageQuery_snd _ _, ?_, ?_, ?_⟩
  · rw [coverageQuery_fst, coverageQuery_snd]
    by_cases h1 : providerKey = "" <;> by_cases h2 : level = "" <;>
      simp only [h1, h2, if_true, if_false] <;> first | decide | rfl
  · intro pk2 lv2 hp hl
    rw [coverageQuery_fst, coverageQuery_fst]
    by_cases h1 : providerKey = "" <;> by_cases h2 : level = "" <;>
      simp [h1, h2, hp, hl]
  · intro lib env r st db hm hdb hp hl
    rw [coverageLimitsHandler_get lib env r st hm, hdb, hp, hl]

/-- Witness of C9: `?provider_key=5&level=Category`. -/
theorem coverage_query_is_parameterised_witness :
    coverageQuery "5" "Category"
        = ("SELECT id, limit_item, provider_key, level, category, subcategory, coverage_amount_hkd, notes \n\t\tFROM coverage_limits WHERE 1=1 AND provider_key = ? AND level = ? ORDER BY provider_key, level, subcategory",
            ["5", "Category"])
      ∧ (coverageQuery "9 OR 1=1 --" "Plan").1 = (coverageQuery "5" "Category").1
      ∧ (coverageLimitsHandler demoLib brokenDbEnv
          { Method := "GET", Body := "", Query := [("provider_key", "5"), ("level", "Category")] }
          Store.initial).1.body = "[]" :=
  ⟨Prod.ext ((coverage_query_is_parameterised "5" "Category").1.trans (by decide))
      ((coverage_query_is_parameterised "5" "Category").2.1.trans (by decide)),
    (coverage_query_is_parameterised "5" "Category").2.2.2.1 "9 OR 1=1 --" "Plan"
      (by decide) (by decide),
    congrArg (fun x => x.1.body)
      ((coverage_query_is_parameterised "5" "Category").2.2.2.2 demoLib brokenDbEnv
        { Method := "GET", Body := "", Query := [("provider_key", "5"), ("level", "Category")] }
        Store.initial { query := fun _ _ => .error "no such table" } rfl rfl (by decide)
        (by decide))⟩

end Petwell
